import Mathlib

/- Shallow embedding of the task-lifecycle core of the video-creator
repository: the polling engine and artifact-reference extraction
(src/video_generator.py), the background task runner and the generate
endpoint (src/web_server.py), and the polling configuration
(src/config.py). Machine timing is modelled with rational clock values;
attributes of SDK response objects are modelled as
Option (Option String): the outer layer is attribute presence (hasattr),
the inner layer distinguishes a null value from a string value. -/

/-- config.py line 33: POLL_INTERVAL = 5, seconds between status checks. -/
def POLL_INTERVAL : ℚ := 5

/-- config.py line 34: MAX_POLL_TIME = 600, maximum wait (10 minutes). -/
def MAX_POLL_TIME : ℚ := 600

/-- Truthiness of a Python value that is either None or a string:
None and the empty string are falsy, every other string is truthy. -/
def optTruthy (o : Option String) : Bool :=
  match o with
  | some s => if s = ("") then false else true
  | none => false

/-- The content object of a remote generation response
(video_generator.py lines 106-115). Each field is an attribute slot:
none when the attribute is missing, some v when present with value v. -/
structure RemoteContent where
  video_url : Option (Option String) := none
  video : Option (Option String) := none
deriving DecidableEq

/-- A remote generation response as probed by poll_status
(video_generator.py lines 91-131): a status string plus attribute slots
for content, a top-level video_url and an error. -/
structure RemoteResponse where
  status : String
  content : Option (Option RemoteContent) := none
  video_url : Option (Option String) := none
  error : Option (Option String) := none
deriving DecidableEq

/-- video_generator.py lines 102-120: extract the artifact reference
from a success response. The content branch runs when the content
attribute exists and is truthy; it takes the video_url attribute value
when that attribute exists (whatever the value), else the video
attribute value. The top-level fallback runs whenever the value found
so far is falsy and the response has a video_url attribute. -/
def extractVideoUrl (r : RemoteResponse) : Option String :=
  let v1 : Option String :=
    match r.content with
    | some (some c) =>
      match c.video_url with
      | some v => v
      | none =>
        match c.video with
        | some v => v
        | none => none
    | _ => none
  if optTruthy v1 then v1
  else
    match r.video_url with
    | some v => v
    | none => v1

/-- The content object of a response when present and truthy. -/
def contentOf (r : RemoteResponse) : Option RemoteContent :=
  match r.content with
  | some (some c) => some c
  | _ => none

/-- The value of an attribute slot, with a missing attribute read as
null. -/
def flattenAttr (a : Option (Option String)) : Option String :=
  match a with
  | some v => v
  | none => none

/-- A value filtered by truthiness: kept only when non-null and
non-empty. -/
def truthyVal (o : Option String) : Option String :=
  if optTruthy o then o else none

/-- Modelled from the claim precedence sentence, reading a field as set
when it holds a non-null, non-empty value: the first set field among
content.video_url, content.video and the top-level video_url wins. -/
def specResolveTruthy (r : RemoteResponse) : Option String :=
  let f1 : Option String :=
    match contentOf r with
    | some cc => truthyVal (flattenAttr cc.video_url)
    | none => none
  let f2 : Option String :=
    match contentOf r with
    | some cc => truthyVal (flattenAttr cc.video)
    | none => none
  let f3 : Option String := truthyVal (flattenAttr r.video_url)
  (f1.orElse (fun _ => f2)).orElse (fun _ => f3)

/-- Modelled from the claim precedence sentence, reading a field as set
when the attribute is present whatever its value: the first present
attribute wins and its value, possibly null, is the resolved
reference. -/
def specResolvePresent (r : RemoteResponse) : Option String :=
  match contentOf r with
  | some cc =>
    match cc.video_url with
    | some v => v
    | none =>
      match cc.video with
      | some v => v
      | none => flattenAttr r.video_url
  | none => flattenAttr r.video_url

/-- The amended resolution rule, written from the amended claim: the
candidate is the value of content.video_url whenever the content object
is present and non-null and that attribute exists, even a null or empty
value, which shadows content.video; otherwise the value of
content.video when that attribute exists; when the candidate obtained
this way is null or empty, a present top-level video_url attribute
supplies the final value, else the candidate stands. -/
def resolvedByAmendedPrecedence (r : RemoteResponse) : Option String :=
  let candidate : Option String :=
    match contentOf r with
    | some cc =>
      match cc.video_url with
      | some v => v
      | none => flattenAttr cc.video
    | none => none
  if optTruthy candidate then candidate
  else
    match r.video_url with
    | some v => v
    | none => candidate

/-- A success response whose content object has a null video_url
attribute next to a set video attribute. -/
def exShadow : RemoteResponse :=
  { status := "succeeded",
    content := some (some { video_url := some none, video := some (some ("V")) }),
    video_url := none, error := none }

/-- A success response whose content object has a null video_url
attribute while the response has a set top-level video_url. -/
def exTopLevel : RemoteResponse :=
  { status := "succeeded",
    content := some (some { video_url := some none, video := none }),
    video_url := some (some ("T")), error := none }

/-- C3 counterexample: the extraction of video_generator.py does not
follow the claimed fixed precedence. On exShadow a set content.video is
skipped because a present-but-null content.video_url shadows it; on
exTopLevel the top-level video_url overrides a present-but-null
content.video_url. So the code disagrees with the claimed precedence
under both readings of a field being set. -/
theorem extract_video_url_precedence_counterexample :
    extractVideoUrl exShadow = none ∧
    specResolveTruthy exShadow = some ("V") ∧
    extractVideoUrl exShadow ≠ specResolveTruthy exShadow ∧
    extractVideoUrl exTopLevel = some ("T") ∧
    specResolvePresent exTopLevel = none ∧
    extractVideoUrl exTopLevel ≠ specResolvePresent exTopLevel := by
  refine ⟨rfl, rfl, ?_, rfl, rfl, ?_⟩ <;> decide

/-- C3 (amended): for every remote success response the artifact
reference is resolved by the amended precedence: content.video_url when
the attribute exists (its value, even null or empty, shadowing
content.video), else content.video; a null or empty candidate is then
overridden by a present top-level video_url. In particular, when
content.video_url is set to a non-empty value, the resolved reference
equals that value even if a top-level video_url is also present. -/
theorem extract_video_url_amended (r : RemoteResponse) :
    extractVideoUrl r = resolvedByAmendedPrecedence r := by
  rcases r with ⟨st, c, vu, er⟩
  rcases c with _ | c
  · rfl
  · rcases c with _ | c
    · rfl
    · rcases c with ⟨cvu, cv⟩
      rcases cvu with _ | cvu
      · rcases cv with _ | cv <;> rfl
      · rfl

/-- The result dictionary returned by poll_status
(video_generator.py lines 86-137): a local status string, the resolved
video_url on success, an error text on failure or timeout. The task_id
and raw_result keys of the source dictionaries are never read by the
task runner and are not modelled. -/
structure PollResult where
  status : String
  video_url : Option String := none
  error : Option String := none
deriving DecidableEq

/-- Python str applied to an attribute value: a null prints as the
string None. -/
def pyStr (v : Option String) : String :=
  match v with
  | some s => s
  | none => "None"

/-- The environment a polling run observes: the remote response returned
by the n-th status query and the wall-clock elapsed time measured at the
start of the n-th iteration. The source sleeps POLL_INTERVAL seconds
after every non-terminal query, so consecutive elapsed readings grow by
at least POLL_INTERVAL; the termination theorem assumes exactly that. -/
structure PollEnv where
  response : Nat → RemoteResponse
  elapsed : Nat → ℚ

/-- video_generator.py lines 69-142, poll_status: loop from iteration n.
Each iteration first compares elapsed time against MAX_POLL_TIME and
returns a timeout result on exceedance, then queries the remote status:
success returns the extracted video_url, failure returns the remote
error text defaulting to Unknown error, anything else sleeps and
continues. The fuel argument bounds the iterations of this embedding;
the timeout theorem shows fuel 122 always suffices under the source
timing, so the loop never runs forever. The timeout message hardcodes
the configured maximum, 600 seconds. The progress callback performed
each iteration only mutates the task record and is modelled with the
task runner. -/
def poll_step (env : PollEnv) (n : Nat) (cont : Option PollResult) : Option PollResult :=
  if MAX_POLL_TIME < env.elapsed n then
    some { status := "timeout", error := some ("Task timed out after 600s") }
  else if (env.response n).status = ("succeeded") then
    some { status := "succeeded", video_url := extractVideoUrl (env.response n) }
  else if (env.response n).status = ("failed") then
    some { status := "failed",
           error := some (match (env.response n).error with
             | some v => pyStr v
             | none => "Unknown error") }
  else
    cont

/-- The polling loop itself: each funded iteration performs one
poll_step, continuing with the next iteration. -/
def poll_status (env : PollEnv) : Nat → Nat → Option PollResult
  | _, 0 => none
  | n, fuel+1 => poll_step env n (poll_status env (n+1) fuel)

/-- One unfolding of the polling loop. -/
theorem poll_status_succ (env : PollEnv) (n fuel : Nat) :
    poll_status env n (fuel+1) = poll_step env n (poll_status env (n+1) fuel) := rfl

/-- Helper for the timeout theorem: once the remaining fuel dominates
the distance to the deadline, the loop returns the timeout result. -/
theorem poll_status_timeout_inv (env : PollEnv)
    (h5 : ∀ n, env.elapsed n + POLL_INTERVAL ≤ env.elapsed (n+1))
    (hnt : ∀ n, (env.response n).status ≠ ("succeeded") ∧
      (env.response n).status ≠ ("failed")) :
    ∀ (fuel n : Nat), MAX_POLL_TIME < env.elapsed n + POLL_INTERVAL * fuel →
      poll_status env n (fuel+1) =
        some { status := "timeout", error := some ("Task timed out after 600s") } := by
  intro fuel
  induction fuel with
  | zero =>
    intro n h
    simp only [Nat.cast_zero, mul_zero, add_zero] at h
    rw [poll_status_succ]
    unfold poll_step
    rw [if_pos h]
  | succ f ih =>
    intro n h
    by_cases hc : MAX_POLL_TIME < env.elapsed n
    · rw [poll_status_succ]
      unfold poll_step
      rw [if_pos hc]
    · have hs := hnt n
      rw [poll_status_succ]
      unfold poll_step
      rw [if_neg hc, if_neg hs.1, if_neg hs.2]
      apply ih (n+1)
      have h5n := h5 n
      have hsplit : env.elapsed n + POLL_INTERVAL * (f+1 : Nat) =
          (env.elapsed n + POLL_INTERVAL) + POLL_INTERVAL * (f : Nat) := by
        push_cast
        ring
      rw [hsplit] at h
      calc MAX_POLL_TIME < (env.elapsed n + POLL_INTERVAL) + POLL_INTERVAL * (f : Nat) := h
        _ ≤ env.elapsed (n+1) + POLL_INTERVAL * (f : Nat) := by linarith

/-- C4 (amended): if the remote status never becomes terminal, polling
still terminates: under the source timing (each non-terminal iteration
adds at least POLL_INTERVAL to the clock) 122 iterations always suffice,
and the result has status timeout, distinct from the failure status
failed; its error message names the configured 600 second maximum
rather than the measured elapsed time. -/
theorem poll_status_times_out (env : PollEnv)
    (h0 : 0 ≤ env.elapsed 0)
    (h5 : ∀ n, env.elapsed n + POLL_INTERVAL ≤ env.elapsed (n+1))
    (hnt : ∀ n, (env.response n).status ≠ ("succeeded") ∧
      (env.response n).status ≠ ("failed")) :
    poll_status env 0 122 =
      some { status := "timeout", error := some ("Task timed out after 600s") } ∧
    ("timeout" : String) ≠ ("failed") := by
  constructor
  · have h := poll_status_timeout_inv env h5 hnt 121 0 (by
      unfold MAX_POLL_TIME POLL_INTERVAL
      push_cast
      linarith)
    simpa using h
  · decide

/-- A polling environment whose remote status is forever queuing and
whose clock advances exactly POLL_INTERVAL per iteration. -/
def envQueuing : PollEnv :=
  { response := fun _ => { status := "queuing" },
    elapsed := fun n => 5 * (n : ℚ) }

/-- C4 witness: the timeout theorem applied to the forever-queuing
environment. -/
theorem poll_status_times_out_witness :
    poll_status envQueuing 0 122 =
      some { status := "timeout", error := some ("Task timed out after 600s") } ∧
    ("timeout" : String) ≠ ("failed") :=
  poll_status_times_out envQueuing
    (show (0:ℚ) ≤ 5 * ((0:Nat) : ℚ) by norm_num)
    (fun n => by
      show 5 * (n : ℚ) + POLL_INTERVAL ≤ 5 * (((n+1) : Nat) : ℚ)
      unfold POLL_INTERVAL
      push_cast
      linarith)
    (fun n =>
      ⟨show ("queuing" : String) ≠ ("succeeded") by decide,
       show ("queuing" : String) ≠ ("failed") by decide⟩)

/-- An environment whose clock already reads 601 seconds. -/
def envLate : PollEnv :=
  { response := fun _ => { status := "queuing" },
    elapsed := fun _ => 601 }

/-- An environment whose clock already reads 9999 seconds. -/
def envVeryLate : PollEnv :=
  { response := fun _ => { status := "queuing" },
    elapsed := fun _ => 9999 }

/-- C4 counterexample: the timeout result does not carry the elapsed
time. Two runs whose elapsed times differ (601 versus 9999 seconds)
return identical timeout results, whose error text names the configured
600 second maximum; so no component of the result determines the
elapsed time, contrary to the claim that the timeout result carries
it. -/
theorem poll_status_timeout_elapsed_counterexample :
    poll_status envLate 0 122 = poll_status envVeryLate 0 122 ∧
    envLate.elapsed 0 ≠ envVeryLate.elapsed 0 ∧
    poll_status envLate 0 122 =
      some { status := "timeout", error := some ("Task timed out after 600s") } := by
  refine ⟨?_, by norm_num [envLate, envVeryLate], ?_⟩ <;> decide

/-- The immutable parameter snapshot stored on a task record
(web_server.py lines 237-242). The ratio field of the source is named
ratioVal here. -/
structure TaskParams where
  mode : String
  prompt : String
  ratioVal : String
  duration : Nat
deriving DecidableEq

/-- The result field of a completed task record
(web_server.py lines 144-148). -/
structure TaskResult where
  video_url : Option String
  local_path : Option String
  video_filename : Option String
deriving DecidableEq

/-- A task record of the in-memory task store (web_server.py lines
232-243 and the mutations of generate_video_task). A field holding none
models a key that is absent from the dictionary. -/
structure TaskRecord where
  id : String
  status : String
  progress : String
  created_at : String
  params : TaskParams
  enhanced_prompt : Option String := none
  elapsed : Option ℚ := none
  completed_at : Option String := none
  result : Option TaskResult := none
  error : Option String := none
deriving DecidableEq

/-- web_server.py lines 232-243: the pending record the generate
endpoint stores before starting the runner thread. -/
def pendingRecord (task_id created_at : String) (params : TaskParams) : TaskRecord :=
  { id := task_id, status := "pending", progress := "Starting...",
    created_at := created_at, params := params }

/-- The dictionary returned by the generate_from_text,
generate_from_image and edit_video methods: the poll_status result plus
the local_path key those methods add after a successful download branch
(video_generator.py lines 214-218, 280-284, 341-345). -/
structure GenResult extends PollResult where
  local_path : Option String := none
deriving DecidableEq

/-- The outcomes of the external collaborators one runner execution can
observe; timing and network behaviour are oracles of this structure.
enhance is the outcome of LLMClient.enhance_video_prompt; readSource is
the outcome of opening and encoding the local source file in
generate_from_image or edit_video; createTask is the outcome of
VideoGenerator.create_task; pollResult is the dictionary returned by
poll_status, or the exception a status query raised; pollCallbacks are
the progress callback invocations poll_status performed; download is the
return value of download_video, none on a caught download failure; now
is the timestamp used for completed_at. -/
structure World where
  enhance : Except String String
  readSource : Except String Unit
  createTask : Except String String
  pollResult : Except String PollResult
  pollCallbacks : List (String × ℚ)
  download : Option String
  now : String

/-- The observable effect of running one VideoGenerator method: its
return value or exception, whether poll_status ran (so that progress
callbacks could fire), the prompt argument it received and the local
source path it read. -/
structure GenCall where
  outcome : Except String GenResult
  polled : Bool
  promptArg : String
  sourceArg : Option String

/-- video_generator.py lines 182-220, generate_from_text: create the
remote task, poll it, and when the poll result is succeeded with a
truthy video_url, download the artifact and store the outcome under
local_path (possibly null on download failure); otherwise return the
poll result unchanged, without a local_path key. An exception from
create_task or a status query propagates to the caller. -/
def generate_from_text (text_prompt : String) (w : World) : GenCall :=
  match w.createTask with
  | .error e => { outcome := .error e, polled := false, promptArg := text_prompt, sourceArg := none }
  | .ok _ =>
    match w.pollResult with
    | .error e => { outcome := .error e, polled := true, promptArg := text_prompt, sourceArg := none }
    | .ok r =>
      if r.status = ("succeeded") ∧ optTruthy r.video_url = true then
        { outcome := .ok { toPollResult := r, local_path := w.download },
          polled := true, promptArg := text_prompt, sourceArg := none }
      else
        { outcome := .ok { toPollResult := r, local_path := none },
          polled := true, promptArg := text_prompt, sourceArg := none }

/-- video_generator.py lines 222-286, generate_from_image: read and
encode the source image, then proceed exactly as generate_from_text. A
null path raises before any file access; a read failure raises before
the remote task is created. -/
def generate_from_image (image_path : Option String) (motion_prompt : String) (w : World) : GenCall :=
  match image_path with
  | none =>
    { outcome := .error ("expected str, bytes or os.PathLike object, not NoneType"),
      polled := false, promptArg := motion_prompt, sourceArg := none }
  | some p =>
    match w.readSource with
    | .error e => { outcome := .error e, polled := false, promptArg := motion_prompt, sourceArg := some p }
    | .ok _ => { generate_from_text motion_prompt w with sourceArg := some p }

/-- video_generator.py lines 288-347, edit_video: read and encode the
source video, then proceed exactly as generate_from_text. -/
def edit_video (video_path : Option String) (edit_prompt : String) (w : World) : GenCall :=
  match video_path with
  | none =>
    { outcome := .error ("expected str, bytes or os.PathLike object, not NoneType"),
      polled := false, promptArg := edit_prompt, sourceArg := none }
  | some p =>
    match w.readSource with
    | .error e => { outcome := .error e, polled := false, promptArg := edit_prompt, sourceArg := some p }
    | .ok _ => { generate_from_text edit_prompt w with sourceArg := some p }

/-- Python or on two optional strings: the left value when truthy, else
the right value (web_server.py line 126). -/
def pyOr (a b : Option String) : Option String :=
  match a with
  | some s => if s = ("") then b else some s
  | none => b

/-- web_server.py lines 102-134: the mode dispatch of the runner. An
unrecognized mode calls no generator method and leaves the result
variable at None. In edit mode the source is video_path or image_path.
The motion prompt passed in image2video mode is text or the empty
string, which equals the text value itself in this embedding. -/
def runGen (mode text1 : String) (image_path video_path : Option String) (w : World) : Option GenCall :=
  if mode = ("text2video") then some (generate_from_text text1 w)
  else if mode = ("image2video") then some (generate_from_image image_path text1 w)
  else if mode = ("edit") then some (edit_video (pyOr video_path image_path) text1 w)
  else none

/-- The progress message each recognized mode writes before calling its
generator method (web_server.py lines 103, 113, 124). -/
def dispatchProgress (mode : String) : Option String :=
  if mode = ("text2video") then some ("Generating video from text...")
  else if mode = ("image2video") then some ("Generating video from image...")
  else if mode = ("edit") then some ("Editing video...")
  else none

/-- web_server.py lines 96-98: each progress callback invocation writes
the progress text and then the elapsed field, two successive record
states. The numeric formatting of the elapsed suffix in the progress
f-string is elided; the field is free text and nothing reads it. -/
def callbackStates : List (String × ℚ) → TaskRecord → List TaskRecord
  | [], _ => []
  | (s, el) :: rest, r =>
    let ra := { r with progress := ("Status: ") ++ s }
    let rb := { ra with elapsed := some el }
    ra :: rb :: callbackStates rest rb

/-- web_server.py lines 85-94: the prompt-enhancement block. When
enhancement is requested and the text is truthy, a progress state is
written and the collaborator is called: on success the working text is
replaced and recorded under enhanced_prompt; on any exception the
original text is kept and no further record state is written. Returns
the record states appended, the record after the block and the working
prompt text. -/
def enhanceStep (enhance_prompt : Bool) (text : String) (r2 : TaskRecord) (w : World) :
    List TaskRecord × TaskRecord × String :=
  if enhance_prompt = true ∧ text ≠ ("") then
    let ra := { r2 with progress := "Enhancing prompt with AI..." }
    match w.enhance with
    | .ok e => ([ra, { ra with enhanced_prompt := some e }], { ra with enhanced_prompt := some e }, e)
    | .error _ => ([ra], ra, text)
  else ([], r2, text)

/-- The record states written while dispatching: the mode progress
message, then the callback states while polling when the generator
method reached poll_status. -/
def dispatchStep (mode text1 : String) (image_path video_path : Option String)
    (r3 : TaskRecord) (w : World) : List TaskRecord × Option GenCall :=
  let gc := runGen mode text1 image_path video_path w
  match dispatchProgress mode with
  | some msg =>
    let rb := { r3 with progress := msg }
    (rb :: (match gc with
            | some g => if g.polled = true then callbackStates w.pollCallbacks rb else []
            | none => []), gc)
  | none => ([], gc)

/-- os.path.basename on the slash-separated paths this system builds:
the component after the last slash. -/
def basename (s : String) : String :=
  String.mk ((s.toList.reverse.takeWhile (fun c => !(c = ('/' : Char)))).reverse)

/-- web_server.py line 147: the video_filename entry, the basename of
local_path when that value is truthy, else null. -/
def videoFilename (lp : Option String) : Option String :=
  if optTruthy lp = true then
    some (basename (match lp with | some s => s | none => ""))
  else none

/-- web_server.py lines 136-160: the terminal block of the runner.
Given the current record and the outcome of the dispatch (none when the
result variable stayed None, an exception when the generator method
raised), write the terminal record states and call save_history exactly
once. On a result whose status is succeeded the task is completed, with
status written first and the result field populated three states later;
otherwise, or on an exception, the task is failed, with status written
before error. Returns the record states and the number of save_history
calls. -/
def finishTask (rlast : TaskRecord) (outcome : Option (Except String GenResult)) (now : String) :
    List TaskRecord × Nat :=
  match outcome with
  | some (.error e) =>
    ([{ rlast with status := "failed" },
      { rlast with status := "failed", error := some e }], 1)
  | some (.ok res) =>
    if res.status = ("succeeded") then
      let rc1 := { rlast with status := "completed" }
      let rc2 := { rc1 with progress := "Done!" }
      let rc3 := { rc2 with completed_at := some now }
      ([rc1, rc2, rc3,
        { rc3 with result := some { video_url := res.video_url,
                                    local_path := res.local_path,
                                    video_filename := videoFilename res.local_path } }], 1)
    else
      let rf1 := { rlast with status := "failed" }
      ([rf1,
        { rf1 with error := some (match res.error with | some m => m | none => "Unknown error") }], 1)
  | none =>
    ([{ rlast with status := "failed" },
      { rlast with status := "failed", error := some ("No result") }], 1)

/-- The observable outcome of one runner execution: the successive
states of the task record beginning with the stored record, the
generator method call if one was made, and the number of save_history
persistence calls. -/
structure RunnerRun where
  trace : List TaskRecord
  genCall : Option GenCall
  persistCount : Nat

/-- web_server.py lines 62-160, generate_video_task: mark the task
processing, optionally enhance the prompt, dispatch on the mode, then
finish. The task_id, ratioVal and duration arguments are forwarded to
the generator methods in the source but produce no observable record
state beyond what the world oracle already fixes. The record r0 is the
stored record the runner mutates. -/
def generate_video_task (task_id mode text : String) (image_path video_path : Option String)
    (ratioVal : String) (duration : Nat) (enhance_prompt : Bool)
    (r0 : TaskRecord) (w : World) : RunnerRun :=
  let r1 := { r0 with status := "processing" }
  let r2 := { r1 with progress := "Initializing..." }
  let es := enhanceStep enhance_prompt text r2 w
  let ds := dispatchStep mode es.2.2 image_path video_path es.2.1 w
  let fin := finishTask (ds.1.getLastD es.2.1) (ds.2.map GenCall.outcome) w.now
  { trace := (r0 :: r1 :: r2 :: (es.1 ++ ds.1)) ++ fin.1,
    genCall := ds.2,
    persistCount := fin.2 }

/-- The status of the last observed record state of a run. -/
def finalStatus (run : RunnerRun) : Option String :=
  (run.trace.getLast?).map TaskRecord.status

/-- The result field of the last observed record state of a run. -/
def finalResult (run : RunnerRun) : Option (Option TaskResult) :=
  (run.trace.getLast?).map TaskRecord.result

/-- The error field of the last observed record state of a run. -/
def finalError (run : RunnerRun) : Option (Option String) :=
  (run.trace.getLast?).map TaskRecord.error

/-- The request body of a generate call with the defaults of
web_server.py lines 202-208. JSON-null text values, which would raise
in the validation below, are outside this embedding; text is a
string. -/
structure GenRequest where
  mode : String := "text2video"
  text : String := ""
  image_id : Option String := none
  video_id : Option String := none
  ratioVal : String := "16:9"
  duration : Nat := 5
  enhance_prompt : Bool := true

/-- The argument tuple handed to the background runner thread
(web_server.py lines 246-250). -/
structure RunnerArgs where
  task_id : String
  mode : String
  text : String
  image_path : Option String
  video_path : Option String
  ratioVal : String
  duration : Nat
  enhance_prompt : Bool

/-- The HTTP response of the generate endpoint: a 400 validation error
with a message, or the accepted payload. -/
inductive GenResponse
  | badRequest (msg : String)
  | accepted (task_id : String) (status : String)

/-- The observable outcome of one generate call: the response, the
record inserted into the task store if any, the runner thread arguments
if a runner was started, and whether the handler itself called
save_history; the source handler never does (web_server.py lines
198-252 contain no save_history call). -/
structure GenOutcome where
  response : GenResponse
  created : Option TaskRecord
  runnerArgs : Option RunnerArgs
  persisted : Bool

/-- Python str.strip with no argument: the string with leading and
trailing whitespace removed. ASCII whitespace characters cover the
inputs this system sees. -/
def pyStrip (s : String) : String :=
  String.mk (((s.toList.dropWhile Char.isWhitespace).reverse.dropWhile Char.isWhitespace).reverse)

/-- os.path.join on the paths this system builds: an absolute second
component replaces the first, otherwise the components are joined with
a slash. -/
def pathJoin (a b : String) : String :=
  if b.startsWith ("/") then b else a ++ ("/") ++ b

/-- web_server.py lines 221-222: resolve an upload identifier to a path
under the uploads directory when the identifier is truthy, else None. -/
def resolvePath (dir : String) (o : Option String) : Option String :=
  match o with
  | some s => if s = ("") then none else some (pathJoin dir s)
  | none => none

/-- web_server.py lines 225-228: a resolved path that is truthy but
does not exist on disk. -/
def missingAt (fileExists : String → Bool) (p : Option String) : Bool :=
  match p with
  | some s => if s = ("") then false else !(fileExists s)
  | none => false

/-- web_server.py lines 198-252, the generate endpoint: per-mode
validation, path resolution, existence checks, then creation of the
pending record and the runner thread. fileExists is the file-system
oracle for os.path.exists; task_id is the fresh eight-character
identifier; now the creation timestamp; dir the uploads directory. -/
def generate (data : GenRequest) (fileExists : String → Bool)
    (task_id now dir : String) : GenOutcome :=
  if data.mode = ("text2video") ∧ pyStrip data.text = ("") then
    { response := .badRequest ("Text prompt is required for text-to-video mode"),
      created := none, runnerArgs := none, persisted := false }
  else if data.mode = ("image2video") ∧ optTruthy data.image_id = false then
    { response := .badRequest ("Image is required for image-to-video mode"),
      created := none, runnerArgs := none, persisted := false }
  else if data.mode = ("edit") ∧ optTruthy data.image_id = false ∧ optTruthy data.video_id = false then
    { response := .badRequest ("Image or video is required for edit mode"),
      created := none, runnerArgs := none, persisted := false }
  else if missingAt fileExists (resolvePath dir data.image_id) = true then
    { response := .badRequest ("Upload image not found"),
      created := none, runnerArgs := none, persisted := false }
  else if missingAt fileExists (resolvePath dir data.video_id) = true then
    { response := .badRequest ("Uploaded video not found"),
      created := none, runnerArgs := none, persisted := false }
  else
    { response := .accepted task_id ("pending"),
      created := some (pendingRecord task_id now
        { mode := data.mode, prompt := data.text,
          ratioVal := data.ratioVal, duration := data.duration }),
      runnerArgs := some
        { task_id := task_id, mode := data.mode, text := data.text,
          image_path := resolvePath dir data.image_id,
          video_path := resolvePath dir data.video_id,
          ratioVal := data.ratioVal, duration := data.duration,
          enhance_prompt := data.enhance_prompt },
      persisted := false }

/-- Membership in the callback states preserves status, result, error
and enhanced_prompt: callbacks only write progress and elapsed. -/
theorem callbackStates_mem : ∀ (cbs : List (String × ℚ)) (r x : TaskRecord),
    x ∈ callbackStates cbs r →
    x.status = r.status ∧ x.result = r.result ∧ x.error = r.error ∧
      x.enhanced_prompt = r.enhanced_prompt := by
  intro cbs
  induction cbs with
  | nil =>
    intro r x hx
    simp [callbackStates] at hx
  | cons c rest ih =>
    intro r x hx
    obtain ⟨s, el⟩ := c
    simp only [callbackStates, List.mem_cons] at hx
    rcases hx with h | h | h
    · subst h
      exact ⟨rfl, rfl, rfl, rfl⟩
    · subst h
      exact ⟨rfl, rfl, rfl, rfl⟩
    · exact ih { r with progress := ("Status: ") ++ s, elapsed := some el } x h

/-- The last callback state preserves status, result, error and
enhanced_prompt of the base record. -/
theorem callbackStates_lastD : ∀ (cbs : List (String × ℚ)) (r : TaskRecord),
    ((callbackStates cbs r).getLastD r).status = r.status ∧
    ((callbackStates cbs r).getLastD r).result = r.result ∧
    ((callbackStates cbs r).getLastD r).error = r.error ∧
    ((callbackStates cbs r).getLastD r).enhanced_prompt = r.enhanced_prompt := by
  intro cbs
  induction cbs with
  | nil =>
    intro r
    exact ⟨rfl, rfl, rfl, rfl⟩
  | cons c rest ih =>
    intro r
    obtain ⟨s, el⟩ := c
    have h1 : callbackStates ((s, el) :: rest) r =
        { r with progress := ("Status: ") ++ s } ::
        { r with progress := ("Status: ") ++ s, elapsed := some el } ::
        callbackStates rest { r with progress := ("Status: ") ++ s, elapsed := some el } := rfl
    rw [h1, List.getLastD_cons, List.getLastD_cons]
    exact ih { r with progress := ("Status: ") ++ s, elapsed := some el }

/-- The three possible outcomes of the enhancement block. -/
theorem enhanceStep_cases (ep : Bool) (t : String) (r2 : TaskRecord) (w : World) :
    enhanceStep ep t r2 w = ([], r2, t) ∨
    (∃ e, w.enhance = .error e ∧ enhanceStep ep t r2 w =
      ([{ r2 with progress := "Enhancing prompt with AI..." }],
       { r2 with progress := "Enhancing prompt with AI..." }, t)) ∨
    (∃ e, w.enhance = .ok e ∧ enhanceStep ep t r2 w =
      ([{ r2 with progress := "Enhancing prompt with AI..." },
        { r2 with progress := "Enhancing prompt with AI...", enhanced_prompt := some e }],
       { r2 with progress := "Enhancing prompt with AI...", enhanced_prompt := some e }, e)) := by
  unfold enhanceStep
  by_cases hc : ep = true ∧ t ≠ ("")
  · rw [if_pos hc]
    cases hw : w.enhance with
    | ok e =>
      right; right
      exact ⟨e, rfl, rfl⟩
    | error e =>
      right; left
      exact ⟨e, rfl, rfl⟩
  · rw [if_neg hc]
    left
    rfl

/-- Every record state of the enhancement block preserves status,
result and error. -/
theorem enhanceStep_mem (ep : Bool) (t : String) (r2 : TaskRecord) (w : World) :
    ∀ x ∈ (enhanceStep ep t r2 w).1,
      x.status = r2.status ∧ x.result = r2.result ∧ x.error = r2.error := by
  intro x hx
  rcases enhanceStep_cases ep t r2 w with h | ⟨e, _, h⟩ | ⟨e, _, h⟩ <;> rw [h] at hx <;> simp at hx
  · rcases hx with rfl
    exact ⟨rfl, rfl, rfl⟩
  · rcases hx with rfl | rfl <;> exact ⟨rfl, rfl, rfl⟩

/-- The record after the enhancement block preserves status, result and
error. -/
theorem enhanceStep_snd (ep : Bool) (t : String) (r2 : TaskRecord) (w : World) :
    (enhanceStep ep t r2 w).2.1.status = r2.status ∧
    (enhanceStep ep t r2 w).2.1.result = r2.result ∧
    (enhanceStep ep t r2 w).2.1.error = r2.error := by
  rcases enhanceStep_cases ep t r2 w with h | ⟨e, _, h⟩ | ⟨e, _, h⟩ <;> rw [h] <;>
    exact ⟨rfl, rfl, rfl⟩

/-- Every record state of the dispatch block preserves status, result,
error and enhanced_prompt. -/
theorem dispatchStep_mem (mode t1 : String) (ip vp : Option String) (r3 : TaskRecord) (w : World) :
    ∀ x ∈ (dispatchStep mode t1 ip vp r3 w).1,
      x.status = r3.status ∧ x.result = r3.result ∧ x.error = r3.error ∧
        x.enhanced_prompt = r3.enhanced_prompt := by
  intro x hx
  unfold dispatchStep at hx
  split at hx
  · rename_i msg heq
    simp only [List.mem_cons] at hx
    rcases hx with h | h
    · subst h
      exact ⟨rfl, rfl, rfl, rfl⟩
    · split at h
      · split at h
        · exact callbackStates_mem w.pollCallbacks { r3 with progress := msg } x h
        · simp at h
      · simp at h
  · simp at hx

/-- The record current at the end of the dispatch block preserves
status, result, error and enhanced_prompt. -/
theorem dispatchStep_lastD (mode t1 : String) (ip vp : Option String) (r3 : TaskRecord) (w : World) :
    ((dispatchStep mode t1 ip vp r3 w).1.getLastD r3).status = r3.status ∧
    ((dispatchStep mode t1 ip vp r3 w).1.getLastD r3).result = r3.result ∧
    ((dispatchStep mode t1 ip vp r3 w).1.getLastD r3).error = r3.error ∧
    ((dispatchStep mode t1 ip vp r3 w).1.getLastD r3).enhanced_prompt = r3.enhanced_prompt := by
  unfold dispatchStep
  split
  · rename_i msg heq
    rw [List.getLastD_cons]
    split
    · split
      · exact callbackStates_lastD _ _
      · exact ⟨rfl, rfl, rfl, rfl⟩
    · exact ⟨rfl, rfl, rfl, rfl⟩
  · exact ⟨rfl, rfl, rfl, rfl⟩

/-- The dispatch block returns exactly the generator call of the mode
dispatch. -/
theorem dispatchStep_snd (mode t1 : String) (ip vp : Option String) (r3 : TaskRecord) (w : World) :
    (dispatchStep mode t1 ip vp r3 w).2 = runGen mode t1 ip vp w := by
  unfold dispatchStep
  split <;> rfl

/-- Every terminal block persists the store exactly once. -/
theorem finishTask_persist (rl : TaskRecord) (oc : Option (Except String GenResult)) (now : String) :
    (finishTask rl oc now).2 = 1 := by
  rcases oc with _ | oc
  · rfl
  · rcases oc with e | res
    · rfl
    · by_cases h : res.status = ("succeeded") <;> simp [finishTask, h]

/-- The statuses written by the terminal block form a non-empty
constant run of completed or failed. -/
theorem finishTask_statuses (rl : TaskRecord) (oc : Option (Except String GenResult)) (now : String) :
    ∃ (m : Nat) (t : String), (t = ("completed") ∨ t = ("failed")) ∧ 1 ≤ m ∧
      (finishTask rl oc now).1.map TaskRecord.status = List.replicate m t := by
  rcases oc with _ | oc
  · exact ⟨2, "failed", .inr rfl, by norm_num, rfl⟩
  · rcases oc with e | res
    · exact ⟨2, "failed", .inr rfl, by norm_num, rfl⟩
    · by_cases h : res.status = ("succeeded")
      · refine ⟨4, "completed", .inl rfl, by norm_num, ?_⟩
        simp [finishTask, h]
      · refine ⟨2, "failed", .inr rfl, by norm_num, ?_⟩
        simp [finishTask, h]

/-- In every record state of the terminal block, a present result
implies status completed, a present error implies status failed, and
result and error are never both present, provided the incoming record
carries neither. -/
theorem finishTask_mem (rl : TaskRecord) (oc : Option (Except String GenResult)) (now : String)
    (hres : rl.result = none) (herr : rl.error = none) :
    ∀ x ∈ (finishTask rl oc now).1,
      (x.result.isSome = true → x.status = ("completed")) ∧
      (x.error.isSome = true → x.status = ("failed")) ∧
      ¬(x.result.isSome = true ∧ x.error.isSome = true) := by
  intro x hx
  rcases oc with _ | oc
  · simp only [finishTask, List.mem_cons, List.mem_singleton] at hx
    rcases hx with rfl | rfl | hx
    · simp [hres, herr]
    · simp [hres]
    · simp at hx
  · rcases oc with e | res
    · simp only [finishTask, List.mem_cons, List.mem_singleton] at hx
      rcases hx with rfl | rfl | hx
      · simp [hres, herr]
      · simp [hres]
      · simp at hx
    · by_cases h : res.status = ("succeeded")
      · simp only [finishTask, h, if_true, List.mem_cons, List.mem_singleton] at hx
        rcases hx with rfl | rfl | rfl | rfl | hx
        · simp [hres, herr]
        · simp [hres, herr]
        · simp [hres, herr]
        · simp [herr]
        · simp at hx
      · simp only [finishTask, h, if_false, List.mem_cons, List.mem_singleton] at hx
        rcases hx with rfl | rfl | hx
        · simp [hres, herr]
        · simp [hres]
        · simp at hx

/-- The terminal block always writes at least one record state. -/
theorem finishTask_ne_nil (rl : TaskRecord) (oc : Option (Except String GenResult)) (now : String) :
    (finishTask rl oc now).1 ≠ [] := by
  rcases oc with _ | oc
  · simp [finishTask]
  · rcases oc with e | res
    · simp [finishTask]
    · by_cases h : res.status = ("succeeded") <;> simp [finishTask, h]

/-- web_server.py lines 144-148: the result entry built from a
generator dictionary. -/
def completedResultOf (res : GenResult) : TaskResult :=
  { video_url := res.video_url
    local_path := res.local_path
    video_filename := videoFilename res.local_path }

/-- The final record of the completed branch of the terminal block. -/
def completedRecord (rl : TaskRecord) (res : GenResult) (now : String) : TaskRecord :=
  { rl with
    status := "completed"
    progress := "Done!"
    completed_at := some now
    result := some (completedResultOf res) }

/-- The final record of the failed branches of the terminal block. -/
def failedRecord (rl : TaskRecord) (msg : String) : TaskRecord :=
  { rl with
    status := "failed"
    error := some msg }

/-- The last record state of the terminal block: completed with a
populated result and no error, or failed with a populated error and no
result, provided the incoming record carries neither. -/
theorem finishTask_last_spec (rl : TaskRecord) (oc : Option (Except String GenResult)) (now : String)
    (hres : rl.result = none) (herr : rl.error = none) :
    ∃ rf, (finishTask rl oc now).1.getLast? = some rf ∧
      ((rf.status = ("completed") ∧ rf.result.isSome = true ∧ rf.error = none) ∨
       (rf.status = ("failed") ∧ rf.error.isSome = true ∧ rf.result = none)) := by
  rcases oc with _ | oc
  · exact ⟨_, rfl, .inr ⟨rfl, rfl, hres⟩⟩
  · rcases oc with e | res
    · exact ⟨_, rfl, .inr ⟨rfl, rfl, hres⟩⟩
    · by_cases h : res.status = ("succeeded")
      · refine ⟨completedRecord rl res now, ?_, .inl ⟨rfl, rfl, herr⟩⟩
        simp [finishTask, h, completedRecord, completedResultOf]
      · refine ⟨failedRecord rl (match res.error with | some m => m | none => "Unknown error"),
          ?_, .inr ⟨rfl, rfl, hres⟩⟩
        simp [finishTask, h, failedRecord]

/-- The last record state of the terminal block on a succeeded result:
the completed record with the populated result field. -/
theorem finishTask_last_ok (rl : TaskRecord) (res : GenResult) (now : String)
    (h : res.status = ("succeeded")) :
    (finishTask rl (some (.ok res)) now).1.getLast? =
      some (completedRecord rl res now) := by
  simp [finishTask, h, completedRecord, completedResultOf]

/-- The last record state of the terminal block when the result
variable stayed None: the failed record with the No result error. -/
theorem finishTask_last_none (rl : TaskRecord) (now : String) :
    (finishTask rl none now).1.getLast? =
      some { rl with status := "failed", error := some ("No result") } := rfl

/-- Decomposition of any runner trace: the stored record, then a block
of processing states that leave result and error untouched, then the
terminal block applied to a processing record with the original result
and error fields, fed with the outcome of the generator call. -/
theorem runner_trace_shape (task_id mode text : String) (ip vp : Option String)
    (rv : String) (d : Nat) (ep : Bool) (r0 : TaskRecord) (w : World) :
    ∃ (pre : List TaskRecord) (rl : TaskRecord),
      (generate_video_task task_id mode text ip vp rv d ep r0 w).trace =
        (r0 :: pre) ++
          (finishTask rl
            ((generate_video_task task_id mode text ip vp rv d ep r0 w).genCall.map GenCall.outcome)
            w.now).1 ∧
      (∀ x ∈ pre, x.status = ("processing") ∧ x.result = r0.result ∧ x.error = r0.error) ∧
      rl.status = ("processing") ∧ rl.result = r0.result ∧ rl.error = r0.error := by
  refine ⟨{ r0 with status := "processing" } ::
      { r0 with status := "processing", progress := "Initializing..." } ::
      ((enhanceStep ep text { r0 with status := "processing", progress := "Initializing..." } w).1 ++
        (dispatchStep mode
          (enhanceStep ep text { r0 with status := "processing", progress := "Initializing..." } w).2.2
          ip vp
          (enhanceStep ep text { r0 with status := "processing", progress := "Initializing..." } w).2.1
          w).1),
    (dispatchStep mode
      (enhanceStep ep text { r0 with status := "processing", progress := "Initializing..." } w).2.2
      ip vp
      (enhanceStep ep text { r0 with status := "processing", progress := "Initializing..." } w).2.1
      w).1.getLastD
        (enhanceStep ep text { r0 with status := "processing", progress := "Initializing..." } w).2.1,
    rfl, ?_, ?_⟩
  · intro x hx
    simp only [List.mem_cons, List.mem_append] at hx
    rcases hx with rfl | rfl | hx | hx
    · exact ⟨rfl, rfl, rfl⟩
    · exact ⟨rfl, rfl, rfl⟩
    · exact enhanceStep_mem ep text _ w x hx
    · have hd := dispatchStep_mem mode _ ip vp _ w x hx
      have he := enhanceStep_snd ep text
        { r0 with status := "processing", progress := "Initializing..." } w
      exact ⟨hd.1.trans he.1, hd.2.1.trans he.2.1, hd.2.2.1.trans he.2.2⟩
  · have hd := dispatchStep_lastD mode
      (enhanceStep ep text { r0 with status := "processing", progress := "Initializing..." } w).2.2
      ip vp
      (enhanceStep ep text { r0 with status := "processing", progress := "Initializing..." } w).2.1
      w
    have he := enhanceStep_snd ep text
      { r0 with status := "processing", progress := "Initializing..." } w
    exact ⟨hd.1.trans he.1, hd.2.1.trans he.2.1, hd.2.2.1.trans he.2.2⟩

/-- The position of a status along the lifecycle chain
pending, processing, terminal. -/
def statusRank (s : String) : Nat :=
  if s = ("pending") then 0 else if s = ("processing") then 1 else 2

/-- A chain a, b, b, ... is monotone under R when R a b and R b b. -/
theorem chain_cons_replicate (R : String → String → Prop) (a b : String)
    (hab : R a b) (hbb : R b b) :
    ∀ m, List.Chain' R (a :: List.replicate m b)
  | 0 => List.chain'_singleton a
  | m+1 => by
    rw [List.replicate_succ]
    exact List.chain'_cons.mpr ⟨hab, chain_cons_replicate R b b hbb hbb m⟩

/-- A chain a, b...b, c...c is monotone under R when every adjacent pair
is. -/
theorem chain_shape (R : String → String → Prop) (a b c : String)
    (hab : R a b) (hbb : R b b) (hbc : R b c) (hcc : R c c) (hac : R a c) :
    ∀ k m, List.Chain' R (a :: (List.replicate k b ++ List.replicate m c))
  | 0, m => by simpa using chain_cons_replicate R a c hac hcc m
  | k+1, m => by
    rw [List.replicate_succ, List.cons_append]
    exact List.chain'_cons.mpr ⟨hab, chain_shape R b b c hbb hbb hbc hcc hbc k m⟩

/-- Position analysis of a list of the shape a, b...b, c...c. -/
theorem getElem_shape (a b c : String) (k m : Nat) :
    ∀ (i : Nat) (x : String),
      (a :: (List.replicate k b ++ List.replicate m c))[i]? = some x →
      (i = 0 ∧ x = a) ∨ (1 ≤ i ∧ i ≤ k ∧ x = b) ∨ (k < i ∧ x = c) := by
  intro i x h
  cases i with
  | zero =>
    rw [List.getElem?_cons_zero] at h
    exact .inl ⟨rfl, (Option.some_inj.mp h).symm⟩
  | succ n =>
    rw [List.getElem?_cons_succ] at h
    by_cases hn : n < k
    · rw [List.getElem?_append_left (by simpa using hn), List.getElem?_replicate,
        if_pos hn] at h
      exact .inr (.inl ⟨by omega, by omega, (Option.some_inj.mp h).symm⟩)
    · rw [List.getElem?_append_right (by simpa using (by omega : k ≤ n)),
        List.getElem?_replicate] at h
      simp only [List.length_replicate] at h
      split at h
      · exact .inr (.inr ⟨by omega, (Option.some_inj.mp h).symm⟩)
      · exact absurd h (by simp)

/-- Stability on a list of the shape a, b...b, c...c when neither a nor
b is terminal: a terminal entry can only be a c, and every later entry
is then also c. -/
theorem stable_shape (a b c : String) (k m : Nat)
    (ha : ¬(a = ("completed") ∨ a = ("failed")))
    (hb : ¬(b = ("completed") ∨ b = ("failed"))) :
    ∀ (i j : Nat) (xi xj : String), i ≤ j →
      (a :: (List.replicate k b ++ List.replicate m c))[i]? = some xi →
      (a :: (List.replicate k b ++ List.replicate m c))[j]? = some xj →
      (xi = ("completed") ∨ xi = ("failed")) → xj = xi := by
  intro i j xi xj hij hi hj hterm
  rcases getElem_shape a b c k m i xi hi with ⟨_, hxa⟩ | ⟨_, _, hxb⟩ | ⟨hki, hxc⟩
  · exact absurd (hxa ▸ hterm) ha
  · exact absurd (hxb ▸ hterm) hb
  · rcases getElem_shape a b c k m j xj hj with ⟨hj0, _⟩ | ⟨_, hjk, _⟩ | ⟨_, hxc2⟩
    · have : False := by omega
      exact this.elim
    · have : False := by omega
      exact this.elim
    · rw [hxc, hxc2]

/-- The statuses along any runner trace started on a pending record form
the shape pending, processing...processing, t...t with t terminal. -/
theorem runner_status_shape (task_id mode text : String) (ip vp : Option String)
    (rv : String) (d : Nat) (ep : Bool) (tid created : String) (params : TaskParams) (w : World) :
    ∃ (k m : Nat) (t : String), (t = ("completed") ∨ t = ("failed")) ∧ 1 ≤ m ∧
      (generate_video_task task_id mode text ip vp rv d ep
        (pendingRecord tid created params) w).trace.map TaskRecord.status =
        ("pending") :: (List.replicate k ("processing") ++ List.replicate m t) := by
  obtain ⟨pre, rl, htr, hpre, hrl⟩ :=
    runner_trace_shape task_id mode text ip vp rv d ep (pendingRecord tid created params) w
  obtain ⟨m, t, ht, hm, hfin⟩ := finishTask_statuses rl
    ((generate_video_task task_id mode text ip vp rv d ep
      (pendingRecord tid created params) w).genCall.map GenCall.outcome) w.now
  refine ⟨pre.length, m, t, ht, hm, ?_⟩
  rw [htr, List.map_append, List.map_cons, hfin]
  have hpre2 : pre.map TaskRecord.status = List.replicate pre.length ("processing") := by
    have hall : ∀ s ∈ pre.map TaskRecord.status, s = ("processing") := by
      intro s hs
      rcases List.mem_map.mp hs with ⟨x, hx, hxs⟩
      rw [← hxs]
      exact (hpre x hx).1
    have h2 := List.eq_replicate_of_mem hall
    simpa [List.length_map] using h2
  rw [hpre2]
  rfl

/-- C5: along every single runner execution started on the pending
record created by the generate endpoint, the task status is monotone
along pending, processing, terminal, and once a record state is
completed or failed every later record state carries the same status:
terminal states never transition again. -/
theorem task_status_monotone (task_id mode text : String) (ip vp : Option String)
    (rv : String) (d : Nat) (ep : Bool) (tid created : String) (params : TaskParams) (w : World) :
    List.Chain' (fun a b => statusRank a ≤ statusRank b)
      ((generate_video_task task_id mode text ip vp rv d ep
        (pendingRecord tid created params) w).trace.map TaskRecord.status) ∧
    (∀ (i j : Nat) (ri rj : TaskRecord), i ≤ j →
      (generate_video_task task_id mode text ip vp rv d ep
        (pendingRecord tid created params) w).trace[i]? = some ri →
      (generate_video_task task_id mode text ip vp rv d ep
        (pendingRecord tid created params) w).trace[j]? = some rj →
      (ri.status = ("completed") ∨ ri.status = ("failed")) → rj.status = ri.status) := by
  obtain ⟨k, m, t, ht, hm, hmap⟩ :=
    runner_status_shape task_id mode text ip vp rv d ep tid created params w
  constructor
  · rw [hmap]
    rcases ht with h | h <;> subst h <;>
      exact chain_shape _ _ _ _ (by decide) (by decide) (by decide) (by decide) (by decide) k m
  · intro i j ri rj hij hi hj hterm
    have hi2 : ((generate_video_task task_id mode text ip vp rv d ep
        (pendingRecord tid created params) w).trace.map TaskRecord.status)[i]? =
        some ri.status := by
      rw [List.getElem?_map, hi]
      rfl
    have hj2 : ((generate_video_task task_id mode text ip vp rv d ep
        (pendingRecord tid created params) w).trace.map TaskRecord.status)[j]? =
        some rj.status := by
      rw [List.getElem?_map, hj]
      rfl
    rw [hmap] at hi2 hj2
    exact stable_shape ("pending") ("processing") t k m (by decide) (by decide)
      i j ri.status rj.status hij hi2 hj2 hterm

/-- C6 (amended): along every runner execution started on the pending
record created by the generate endpoint, a present result implies
status completed, a present error implies status failed, and result and
error are never both present; in the final record state the
implications are equivalences: result is present iff completed and
error is present iff failed. Transient intermediate states, between the
terminal status assignment and the subsequent result or error
assignment, carry a terminal status with neither field present. -/
theorem task_result_error_discipline (task_id mode text : String) (ip vp : Option String)
    (rv : String) (d : Nat) (ep : Bool) (tid created : String) (params : TaskParams) (w : World) :
    (∀ x ∈ (generate_video_task task_id mode text ip vp rv d ep
        (pendingRecord tid created params) w).trace,
      (x.result.isSome = true → x.status = ("completed")) ∧
      (x.error.isSome = true → x.status = ("failed")) ∧
      ¬(x.result.isSome = true ∧ x.error.isSome = true)) ∧
    (∀ rf, (generate_video_task task_id mode text ip vp rv d ep
        (pendingRecord tid created params) w).trace.getLast? = some rf →
      ((rf.status = ("completed") ↔ rf.result.isSome = true) ∧
       (rf.status = ("failed") ↔ rf.error.isSome = true) ∧
       ¬(rf.result.isSome = true ∧ rf.error.isSome = true))) := by
  obtain ⟨pre, rl, htr, hpre, hrls, hrlr, hrle⟩ :=
    runner_trace_shape task_id mode text ip vp rv d ep (pendingRecord tid created params) w
  have hres : rl.result = none := hrlr
  have herr : rl.error = none := hrle
  constructor
  · intro x hx
    rw [htr] at hx
    rcases List.mem_append.mp hx with hx | hx
    · rcases List.mem_cons.mp hx with rfl | hx
      · simp [pendingRecord]
      · have h := hpre x hx
        rw [h.2.1, h.2.2]
        simp [pendingRecord]
    · exact finishTask_mem rl _ w.now hres herr x hx
  · intro rf hrf
    rw [htr, List.getLast?_append_of_ne_nil _ (finishTask_ne_nil rl _ w.now)] at hrf
    obtain ⟨rf2, hrf2, hspec⟩ := finishTask_last_spec rl
      ((generate_video_task task_id mode text ip vp rv d ep
        (pendingRecord tid created params) w).genCall.map GenCall.outcome) w.now hres herr
    rw [hrf2] at hrf
    have heq := Option.some_inj.mp hrf
    subst heq
    rcases hspec with ⟨h1, h2, h3⟩ | ⟨h1, h2, h3⟩ <;>
      refine ⟨?_, ?_, ?_⟩ <;> simp [h1, h2, h3]

/-- The final record of a runner execution is the last record of the
terminal block applied to a processing record with the original result
and error fields. -/
theorem runner_final (task_id mode text : String) (ip vp : Option String)
    (rv : String) (d : Nat) (ep : Bool) (r0 : TaskRecord) (w : World) :
    ∃ rl, rl.status = ("processing") ∧ rl.result = r0.result ∧ rl.error = r0.error ∧
      (generate_video_task task_id mode text ip vp rv d ep r0 w).trace.getLast? =
        ((finishTask rl
          ((generate_video_task task_id mode text ip vp rv d ep r0 w).genCall.map GenCall.outcome)
          w.now).1).getLast? := by
  obtain ⟨pre, rl, htr, hpre, h1, h2, h3⟩ :=
    runner_trace_shape task_id mode text ip vp rv d ep r0 w
  refine ⟨rl, h1, h2, h3, ?_⟩
  rw [htr]
  exact List.getLast?_append_of_ne_nil _ (finishTask_ne_nil rl _ w.now)

/-- The generator call of a runner execution is the mode dispatch
applied to the working text after enhancement. -/
theorem runner_genCall (task_id mode text : String) (ip vp : Option String)
    (rv : String) (d : Nat) (ep : Bool) (r0 : TaskRecord) (w : World) :
    (generate_video_task task_id mode text ip vp rv d ep r0 w).genCall =
      runGen mode
        (enhanceStep ep text { r0 with status := "processing", progress := "Initializing..." } w).2.2
        ip vp w :=
  dispatchStep_snd mode
    (enhanceStep ep text { r0 with status := "processing", progress := "Initializing..." } w).2.2
    ip vp
    (enhanceStep ep text { r0 with status := "processing", progress := "Initializing..." } w).2.1
    w

/-- When the mode is one of the three recognized modes and, for the two
file-reading modes, the source path is present and the read succeeds,
the dispatch reaches the shared create-poll-download tail, whose
outcome equals that of generate_from_text. -/
theorem runGen_reaches (mode t1 : String) (ip vp : Option String) (w : World)
    (hmode : mode = ("text2video") ∨
      (mode = ("image2video") ∧ ip.isSome = true ∧ w.readSource = .ok ()) ∨
      (mode = ("edit") ∧ (pyOr vp ip).isSome = true ∧ w.readSource = .ok ())) :
    ∃ g, runGen mode t1 ip vp w = some g ∧
      g.outcome = (generate_from_text t1 w).outcome := by
  rcases hmode with h | ⟨h, hip, hrs⟩ | ⟨h, hsp, hrs⟩
  · subst h
    exact ⟨generate_from_text t1 w, by simp [runGen], rfl⟩
  · subst h
    rcases Option.isSome_iff_exists.mp hip with ⟨p, hp⟩
    subst hp
    refine ⟨generate_from_image (some p) t1 w, by simp [runGen], ?_⟩
    unfold generate_from_image
    rw [hrs]
  · subst h
    rcases Option.isSome_iff_exists.mp hsp with ⟨p, hp⟩
    refine ⟨edit_video (pyOr vp ip) t1 w, by simp [runGen], ?_⟩
    rw [hp]
    unfold edit_video
    rw [hrs]

/-- When the dispatch outcome is a succeeded dictionary, the runner
ends the task completed: the final record has status completed, the
result entry built from the dictionary and the untouched error field,
and the store is persisted exactly once. -/
theorem runner_completed_of_outcome (task_id mode text : String) (ip vp : Option String)
    (rv : String) (d : Nat) (ep : Bool) (r0 : TaskRecord) (w : World) (res : GenResult)
    (hoc : (generate_video_task task_id mode text ip vp rv d ep r0 w).genCall.map GenCall.outcome =
      some (.ok res))
    (hst : res.status = ("succeeded"))
    (hr0err : r0.error = none) :
    finalStatus (generate_video_task task_id mode text ip vp rv d ep r0 w) = some ("completed") ∧
    finalResult (generate_video_task task_id mode text ip vp rv d ep r0 w) =
      some (some (completedResultOf res)) ∧
    finalError (generate_video_task task_id mode text ip vp rv d ep r0 w) = some none ∧
    (generate_video_task task_id mode text ip vp rv d ep r0 w).persistCount = 1 := by
  obtain ⟨rl, hrls, hrlr, hrle, hlast⟩ := runner_final task_id mode text ip vp rv d ep r0 w
  rw [hoc] at hlast
  rw [finishTask_last_ok rl res w.now hst] at hlast
  refine ⟨?_, ?_, ?_, finishTask_persist _ _ _⟩
  · rw [finalStatus, hlast]
    rfl
  · rw [finalResult, hlast]
    rfl
  · rw [finalError, hlast]
    show some (completedRecord rl res w.now).error = some none
    have : (completedRecord rl res w.now).error = rl.error := rfl
    rw [this, hrle, hr0err]

/-- C1 (amended): when polling reports terminal success but no artifact
reference resolves (video_url falsy), the runner marks the task
completed, not failed: the final record has status completed, a result
whose video_url carries the falsy poll value and whose local_path and
video_filename are null, no error, and the store is persisted. -/
theorem runner_success_without_artifact_completes (task_id mode text : String)
    (ip vp : Option String) (rv : String) (d : Nat) (ep : Bool) (r0 : TaskRecord) (w : World)
    (pr : PollResult) (tid0 : String)
    (hr0err : r0.error = none)
    (hct : w.createTask = .ok tid0)
    (hpr : w.pollResult = .ok pr)
    (hst : pr.status = ("succeeded"))
    (hvu : optTruthy pr.video_url = false)
    (hmode : mode = ("text2video") ∨
      (mode = ("image2video") ∧ ip.isSome = true ∧ w.readSource = .ok ()) ∨
      (mode = ("edit") ∧ (pyOr vp ip).isSome = true ∧ w.readSource = .ok ())) :
    finalStatus (generate_video_task task_id mode text ip vp rv d ep r0 w) = some ("completed") ∧
    finalStatus (generate_video_task task_id mode text ip vp rv d ep r0 w) ≠ some ("failed") ∧
    finalResult (generate_video_task task_id mode text ip vp rv d ep r0 w) =
      some (some { video_url := pr.video_url, local_path := none, video_filename := none }) ∧
    finalError (generate_video_task task_id mode text ip vp rv d ep r0 w) = some none ∧
    (generate_video_task task_id mode text ip vp rv d ep r0 w).persistCount = 1 := by
  obtain ⟨g, hg, hgo⟩ := runGen_reaches mode
    (enhanceStep ep text { r0 with status := "processing", progress := "Initializing..." } w).2.2
    ip vp w hmode
  have hgc : (generate_video_task task_id mode text ip vp rv d ep r0 w).genCall = some g := by
    rw [runner_genCall]
    exact hg
  have hnot : ¬(pr.status = ("succeeded") ∧ optTruthy pr.video_url = true) := by
    rintro ⟨-, hcon⟩
    rw [hvu] at hcon
    exact Bool.false_ne_true hcon
  have hout : g.outcome = .ok { toPollResult := pr, local_path := none } := by
    rw [hgo]
    simp only [generate_from_text, hct, hpr]
    rw [if_neg hnot]
  have hoc : (generate_video_task task_id mode text ip vp rv d ep r0 w).genCall.map GenCall.outcome =
      some (.ok { toPollResult := pr, local_path := none }) := by
    rw [hgc, Option.map_some', hout]
  have hmain := runner_completed_of_outcome task_id mode text ip vp rv d ep r0 w
    { toPollResult := pr, local_path := none } hoc hst hr0err
  have hres2 : completedResultOf { toPollResult := pr, local_path := none } =
      { video_url := pr.video_url, local_path := none, video_filename := none } := rfl
  refine ⟨hmain.1, ?_, ?_, hmain.2.2.1, hmain.2.2.2⟩
  · rw [hmain.1]
    intro hcon
    have := Option.some_inj.mp hcon
    exact absurd this (by decide)
  · rw [hmain.2.1, hres2]

/-- The parameter snapshot used by the concrete runs below. -/
def exParams : TaskParams :=
  { mode := "text2video", prompt := "hi", ratioVal := "16:9", duration := 5 }

/-- A world where the remote job succeeds without an artifact
reference. -/
def wNoArtifact : World :=
  { enhance := .error ("llm down")
    readSource := .ok ()
    createTask := .ok ("remote-1")
    pollResult := .ok { status := "succeeded", video_url := none, error := none }
    pollCallbacks := [(("succeeded"), 3)]
    download := none
    now := "T1" }

/-- C1 witness: the amended theorem applied to a concrete
text-to-video run whose poll result is succeeded with a null
video_url. -/
theorem runner_success_without_artifact_witness :
    finalStatus (generate_video_task ("t1") ("text2video") ("hi") none none ("16:9") 5 true
      (pendingRecord ("t1") ("T0") exParams) wNoArtifact) = some ("completed") ∧
    finalStatus (generate_video_task ("t1") ("text2video") ("hi") none none ("16:9") 5 true
      (pendingRecord ("t1") ("T0") exParams) wNoArtifact) ≠ some ("failed") ∧
    finalResult (generate_video_task ("t1") ("text2video") ("hi") none none ("16:9") 5 true
      (pendingRecord ("t1") ("T0") exParams) wNoArtifact) =
      some (some { video_url := none, local_path := none, video_filename := none }) ∧
    finalError (generate_video_task ("t1") ("text2video") ("hi") none none ("16:9") 5 true
      (pendingRecord ("t1") ("T0") exParams) wNoArtifact) = some none ∧
    (generate_video_task ("t1") ("text2video") ("hi") none none ("16:9") 5 true
      (pendingRecord ("t1") ("T0") exParams) wNoArtifact).persistCount = 1 :=
  runner_success_without_artifact_completes ("t1") ("text2video") ("hi") none none ("16:9") 5 true
    (pendingRecord ("t1") ("T0") exParams) wNoArtifact
    { status := "succeeded", video_url := none, error := none } ("remote-1")
    rfl rfl rfl rfl rfl (.inl rfl)

/-- C1 counterexample: on the same concrete run, the task ends
completed, not failed, although the claim requires it to be marked
failed. -/
theorem runner_success_without_artifact_counterexample :
    finalStatus (generate_video_task ("t1") ("text2video") ("hi") none none ("16:9") 5 true
      (pendingRecord ("t1") ("T0") exParams) wNoArtifact) = some ("completed") ∧
    ¬ finalStatus (generate_video_task ("t1") ("text2video") ("hi") none none ("16:9") 5 true
      (pendingRecord ("t1") ("T0") exParams) wNoArtifact) = some ("failed") := by
  constructor
  · rfl
  · decide

/-- C2 (amended): when the remote job succeeds with a truthy artifact
reference but downloading the artifact fails (download_video returns
None), the runner still marks the task completed, not failed: the final
record has status completed, a result whose video_url carries the
remote reference but whose local_path and video_filename are null, and
no error message distinguishes the local fetch failure; the store is
persisted. -/
theorem runner_download_failure_completes (task_id mode text : String)
    (ip vp : Option String) (rv : String) (d : Nat) (ep : Bool) (r0 : TaskRecord) (w : World)
    (pr : PollResult) (tid0 : String)
    (hr0err : r0.error = none)
    (hct : w.createTask = .ok tid0)
    (hpr : w.pollResult = .ok pr)
    (hst : pr.status = ("succeeded"))
    (hvu : optTruthy pr.video_url = true)
    (hdl : w.download = none)
    (hmode : mode = ("text2video") ∨
      (mode = ("image2video") ∧ ip.isSome = true ∧ w.readSource = .ok ()) ∨
      (mode = ("edit") ∧ (pyOr vp ip).isSome = true ∧ w.readSource = .ok ())) :
    finalStatus (generate_video_task task_id mode text ip vp rv d ep r0 w) = some ("completed") ∧
    finalStatus (generate_video_task task_id mode text ip vp rv d ep r0 w) ≠ some ("failed") ∧
    finalResult (generate_video_task task_id mode text ip vp rv d ep r0 w) =
      some (some { video_url := pr.video_url, local_path := none, video_filename := none }) ∧
    finalError (generate_video_task task_id mode text ip vp rv d ep r0 w) = some none ∧
    (generate_video_task task_id mode text ip vp rv d ep r0 w).persistCount = 1 := by
  obtain ⟨g, hg, hgo⟩ := runGen_reaches mode
    (enhanceStep ep text { r0 with status := "processing", progress := "Initializing..." } w).2.2
    ip vp w hmode
  have hgc : (generate_video_task task_id mode text ip vp rv d ep r0 w).genCall = some g := by
    rw [runner_genCall]
    exact hg
  have hout : g.outcome = .ok { toPollResult := pr, local_path := none } := by
    rw [hgo]
    simp only [generate_from_text, hct, hpr]
    rw [if_pos ⟨hst, hvu⟩, hdl]
  have hoc : (generate_video_task task_id mode text ip vp rv d ep r0 w).genCall.map GenCall.outcome =
      some (.ok { toPollResult := pr, local_path := none }) := by
    rw [hgc, Option.map_some', hout]
  have hmain := runner_completed_of_outcome task_id mode text ip vp rv d ep r0 w
    { toPollResult := pr, local_path := none } hoc hst hr0err
  have hres2 : completedResultOf { toPollResult := pr, local_path := none } =
      { video_url := pr.video_url, local_path := none, video_filename := none } := rfl
  refine ⟨hmain.1, ?_, ?_, hmain.2.2.1, hmain.2.2.2⟩
  · rw [hmain.1]
    intro hcon
    have := Option.some_inj.mp hcon
    exact absurd this (by decide)
  · rw [hmain.2.1, hres2]

/-- A world where the remote job succeeds with an artifact reference
but the download fails. -/
def wFetchFail : World :=
  { enhance := .error ("llm down")
    readSource := .ok ()
    createTask := .ok ("remote-2")
    pollResult := .ok { status := "succeeded", video_url := some ("http://cdn/v.mp4"), error := none }
    pollCallbacks := [(("succeeded"), 4)]
    download := none
    now := "T2" }

/-- C2 witness: the amended theorem applied to a concrete
text-to-video run with a truthy remote reference and a failed
download. -/
theorem runner_download_failure_witness :
    finalStatus (generate_video_task ("t2") ("text2video") ("hi") none none ("16:9") 5 true
      (pendingRecord ("t2") ("T0") exParams) wFetchFail) = some ("completed") ∧
    finalStatus (generate_video_task ("t2") ("text2video") ("hi") none none ("16:9") 5 true
      (pendingRecord ("t2") ("T0") exParams) wFetchFail) ≠ some ("failed") ∧
    finalResult (generate_video_task ("t2") ("text2video") ("hi") none none ("16:9") 5 true
      (pendingRecord ("t2") ("T0") exParams) wFetchFail) =
      some (some { video_url := some ("http://cdn/v.mp4"), local_path := none, video_filename := none }) ∧
    finalError (generate_video_task ("t2") ("text2video") ("hi") none none ("16:9") 5 true
      (pendingRecord ("t2") ("T0") exParams) wFetchFail) = some none ∧
    (generate_video_task ("t2") ("text2video") ("hi") none none ("16:9") 5 true
      (pendingRecord ("t2") ("T0") exParams) wFetchFail).persistCount = 1 :=
  runner_download_failure_completes ("t2") ("text2video") ("hi") none none ("16:9") 5 true
    (pendingRecord ("t2") ("T0") exParams) wFetchFail
    { status := "succeeded", video_url := some ("http://cdn/v.mp4"), error := none } ("remote-2")
    rfl rfl rfl rfl rfl rfl (.inl rfl)

/-- C2 counterexample: on that concrete run the task ends completed,
not failed, although the claim requires the task to be marked failed
when the artifact fetch fails. -/
theorem runner_download_failure_counterexample :
    finalStatus (generate_video_task ("t2") ("text2video") ("hi") none none ("16:9") 5 true
      (pendingRecord ("t2") ("T0") exParams) wFetchFail) = some ("completed") ∧
    ¬ finalStatus (generate_video_task ("t2") ("text2video") ("hi") none none ("16:9") 5 true
      (pendingRecord ("t2") ("T0") exParams) wFetchFail) = some ("failed") := by
  constructor
  · rfl
  · decide

/-- The terminal status determined by the dispatch outcome. -/
def statusOfOutcome (oc : Option (Except String GenResult)) : String :=
  match oc with
  | some (.ok res) => if res.status = ("succeeded") then ("completed") else ("failed")
  | _ => "failed"

/-- The final status written by the terminal block. -/
theorem finishTask_last_status (rl : TaskRecord) (oc : Option (Except String GenResult)) (now : String) :
    ((finishTask rl oc now).1.getLast?).map TaskRecord.status = some (statusOfOutcome oc) := by
  rcases oc with _ | oc
  · rfl
  · rcases oc with e | res
    · rfl
    · by_cases h : res.status = ("succeeded") <;> simp [finishTask, statusOfOutcome, h]

/-- The final status of any runner execution is determined by the
dispatch outcome alone. -/
theorem runner_finalStatus (task_id mode text : String) (ip vp : Option String)
    (rv : String) (d : Nat) (ep : Bool) (r0 : TaskRecord) (w : World) :
    finalStatus (generate_video_task task_id mode text ip vp rv d ep r0 w) =
      some (statusOfOutcome
        ((generate_video_task task_id mode text ip vp rv d ep r0 w).genCall.map GenCall.outcome)) := by
  obtain ⟨rl, _, _, _, hlast⟩ := runner_final task_id mode text ip vp rv d ep r0 w
  rw [finalStatus, hlast, finishTask_last_status]

/-- C10: a generate request whose mode is not one of text2video,
image2video or edit passes validation (the mode checks do not apply and
any provided upload identifiers resolve to existing files), creates a
pending task, and its runner never invokes a generator method, so the
remote generation service is never contacted, and for every world the
task always ends failed with the error text No result, persisting the
store once. -/
theorem unknown_mode_no_result (data : GenRequest) (fileExists : String → Bool)
    (task_id now dir : String)
    (h1 : data.mode ≠ ("text2video")) (h2 : data.mode ≠ ("image2video")) (h3 : data.mode ≠ ("edit"))
    (h4 : missingAt fileExists (resolvePath dir data.image_id) = false)
    (h5 : missingAt fileExists (resolvePath dir data.video_id) = false) :
    (generate data fileExists task_id now dir).response = .accepted task_id ("pending") ∧
    (generate data fileExists task_id now dir).created =
      some (pendingRecord task_id now
        { mode := data.mode, prompt := data.text,
          ratioVal := data.ratioVal, duration := data.duration }) ∧
    (∀ (w : World) (r0 : TaskRecord),
      (generate_video_task task_id data.mode data.text (resolvePath dir data.image_id)
        (resolvePath dir data.video_id) data.ratioVal data.duration data.enhance_prompt
        r0 w).genCall = none ∧
      finalStatus (generate_video_task task_id data.mode data.text (resolvePath dir data.image_id)
        (resolvePath dir data.video_id) data.ratioVal data.duration data.enhance_prompt
        r0 w) = some ("failed") ∧
      finalError (generate_video_task task_id data.mode data.text (resolvePath dir data.image_id)
        (resolvePath dir data.video_id) data.ratioVal data.duration data.enhance_prompt
        r0 w) = some (some ("No result")) ∧
      (generate_video_task task_id data.mode data.text (resolvePath dir data.image_id)
        (resolvePath dir data.video_id) data.ratioVal data.duration data.enhance_prompt
        r0 w).persistCount = 1) := by
  refine ⟨?_, ?_, ?_⟩
  · simp [generate, h1, h2, h3, h4, h5]
  · simp [generate, h1, h2, h3, h4, h5]
  · intro w r0
    have hgc : (generate_video_task task_id data.mode data.text (resolvePath dir data.image_id)
        (resolvePath dir data.video_id) data.ratioVal data.duration data.enhance_prompt
        r0 w).genCall = none := by
      rw [runner_genCall]
      simp [runGen, h1, h2, h3]
    obtain ⟨rl, _, _, _, hlast⟩ := runner_final task_id data.mode data.text
      (resolvePath dir data.image_id) (resolvePath dir data.video_id)
      data.ratioVal data.duration data.enhance_prompt r0 w
    rw [hgc, Option.map_none', finishTask_last_none] at hlast
    refine ⟨hgc, ?_, ?_, finishTask_persist _ _ _⟩
    · rw [finalStatus, hlast]
      rfl
    · rw [finalError, hlast]
      rfl

/-- A file-system oracle on which nothing exists. -/
def falseFs : String → Bool := fun _ => false

/-- A generate request with an unrecognized mode. -/
def reqTen : GenRequest := { mode := "dream", text := "x" }

/-- A world for the unknown-mode run. -/
def wTen : World :=
  { enhance := .error ("down")
    readSource := .ok ()
    createTask := .ok ("remote-x")
    pollResult := .ok { status := "succeeded", video_url := some ("u"), error := none }
    pollCallbacks := []
    download := none
    now := "T10" }

/-- C10 witness: the theorem applied to a concrete request with mode
dream and no uploads, run against a concrete world. -/
theorem unknown_mode_no_result_witness :
    (generate reqTen falseFs ("t10") ("T0") ("uploads")).response = .accepted ("t10") ("pending") ∧
    (generate reqTen falseFs ("t10") ("T0") ("uploads")).created =
      some (pendingRecord ("t10") ("T0")
        { mode := "dream", prompt := "x", ratioVal := "16:9", duration := 5 }) ∧
    (generate_video_task ("t10") reqTen.mode reqTen.text (resolvePath ("uploads") reqTen.image_id)
      (resolvePath ("uploads") reqTen.video_id) reqTen.ratioVal reqTen.duration reqTen.enhance_prompt
      (pendingRecord ("t10") ("T0")
        { mode := "dream", prompt := "x", ratioVal := "16:9", duration := 5 }) wTen).genCall = none ∧
    finalStatus (generate_video_task ("t10") reqTen.mode reqTen.text (resolvePath ("uploads") reqTen.image_id)
      (resolvePath ("uploads") reqTen.video_id) reqTen.ratioVal reqTen.duration reqTen.enhance_prompt
      (pendingRecord ("t10") ("T0")
        { mode := "dream", prompt := "x", ratioVal := "16:9", duration := 5 }) wTen) = some ("failed") ∧
    finalError (generate_video_task ("t10") reqTen.mode reqTen.text (resolvePath ("uploads") reqTen.image_id)
      (resolvePath ("uploads") reqTen.video_id) reqTen.ratioVal reqTen.duration reqTen.enhance_prompt
      (pendingRecord ("t10") ("T0")
        { mode := "dream", prompt := "x", ratioVal := "16:9", duration := 5 }) wTen) =
      some (some ("No result")) := by
  have h := unknown_mode_no_result reqTen falseFs ("t10") ("T0") ("uploads")
    (by decide) (by decide) (by decide) rfl rfl
  have h3 := h.2.2 wTen (pendingRecord ("t10") ("T0")
    { mode := "dream", prompt := "x", ratioVal := "16:9", duration := 5 })
  exact ⟨h.1, h.2.1, h3.1, h3.2.1, h3.2.2.1⟩

/-- C7: a generate request with mode text2video and empty or
whitespace-only text is rejected with the 400 validation message, no
task record is created, no runner is started, and the handler does not
write the history file, which therefore stays unchanged. -/
theorem generate_empty_text_rejected (data : GenRequest) (fileExists : String → Bool)
    (task_id now dir : String)
    (hm : data.mode = ("text2video")) (ht : pyStrip data.text = ("")) :
    generate data fileExists task_id now dir =
      { response := .badRequest ("Text prompt is required for text-to-video mode"),
        created := none, runnerArgs := none, persisted := false } := by
  unfold generate
  rw [if_pos ⟨hm, ht⟩]

/-- A text2video request whose text is whitespace only. -/
def reqSeven : GenRequest := { mode := "text2video", text := "   " }

/-- C7 witness: the theorem applied to a concrete whitespace-only
request. -/
theorem generate_empty_text_rejected_witness :
    generate reqSeven falseFs ("t7") ("T0") ("uploads") =
      { response := .badRequest ("Text prompt is required for text-to-video mode"),
        created := none, runnerArgs := none, persisted := false } :=
  generate_empty_text_rejected reqSeven falseFs ("t7") ("T0") ("uploads") rfl (by decide)

/-- C9: in edit mode, when a video path is provided (truthy), the
runner uses the video as the edit source, regardless of any provided
image path: video takes precedence over image. -/
theorem edit_mode_video_precedence (task_id text : String) (ip : Option String) (v : String)
    (rv : String) (d : Nat) (ep : Bool) (r0 : TaskRecord) (w : World)
    (hv : v ≠ ("")) :
    ((generate_video_task task_id ("edit") text ip (some v) rv d ep r0 w).genCall.map
      GenCall.sourceArg) = some (some v) := by
  rw [runner_genCall]
  have hpy : pyOr (some v) ip = some v := by
    simp [pyOr, hv]
  have hrg : runGen ("edit")
      (enhanceStep ep text { r0 with status := "processing", progress := "Initializing..." } w).2.2
      ip (some v) w =
      some (edit_video (some v)
        (enhanceStep ep text
          { r0 with status := "processing", progress := "Initializing..." } w).2.2 w) := by
    simp [runGen, hpy]
  rw [hrg, Option.map_some']
  rcases hrs : w.readSource with e | u <;> simp [edit_video, hrs]

/-- A world for the edit-precedence run. -/
def wNine : World :=
  { enhance := .error ("down")
    readSource := .ok ()
    createTask := .ok ("remote-9")
    pollResult := .ok { status := "failed", video_url := none, error := some ("boom") }
    pollCallbacks := []
    download := none
    now := "T9" }

/-- C9 witness: the theorem applied to a concrete edit run with both an
image and a video source provided. -/
theorem edit_mode_video_precedence_witness :
    ((generate_video_task ("t9") ("edit") ("make it blue") (some ("uploads/a.png"))
      (some ("uploads/b.mp4")) ("16:9") 5 false (pendingRecord ("t9") ("T0") exParams)
      wNine).genCall.map GenCall.sourceArg) = some (some ("uploads/b.mp4")) :=
  edit_mode_video_precedence ("t9") ("make it blue") (some ("uploads/a.png")) ("uploads/b.mp4")
    ("16:9") 5 false (pendingRecord ("t9") ("T0") exParams) wNine (by decide)

/-- The enhancement block on a failing collaborator: the working prompt
stays the original text and no state writes enhanced_prompt. -/
theorem enhanceStep_error_spec (ep : Bool) (t : String) (r2 : TaskRecord) (w : World) (e : String)
    (he : w.enhance = .error e) :
    (enhanceStep ep t r2 w).2.2 = t ∧
    (∀ x ∈ (enhanceStep ep t r2 w).1, x.enhanced_prompt = r2.enhanced_prompt) ∧
    (enhanceStep ep t r2 w).2.1.enhanced_prompt = r2.enhanced_prompt := by
  rcases enhanceStep_cases ep t r2 w with h | ⟨e2, he2, h⟩ | ⟨e2, he2, h⟩
  · rw [h]
    exact ⟨rfl, by simp, rfl⟩
  · rw [h]
    refine ⟨rfl, ?_, rfl⟩
    intro x hx
    simp at hx
    subst hx
    rfl
  · rw [he2] at he
    exact absurd he (by simp)

/-- Every record of the terminal block preserves enhanced_prompt. -/
theorem finishTask_mem_enh (rl : TaskRecord) (oc : Option (Except String GenResult)) (now : String) :
    ∀ x ∈ (finishTask rl oc now).1, x.enhanced_prompt = rl.enhanced_prompt := by
  intro x hx
  rcases oc with _ | oc
  · simp only [finishTask, List.mem_cons, List.mem_singleton] at hx
    rcases hx with rfl | rfl | hx
    · rfl
    · rfl
    · simp at hx
  · rcases oc with e | res
    · simp only [finishTask, List.mem_cons, List.mem_singleton] at hx
      rcases hx with rfl | rfl | hx
      · rfl
      · rfl
      · simp at hx
    · by_cases h : res.status = ("succeeded")
      · simp only [finishTask, h, if_true, List.mem_cons, List.mem_singleton] at hx
        rcases hx with rfl | rfl | rfl | rfl | hx
        · rfl
        · rfl
        · rfl
        · rfl
        · simp at hx
      · simp only [finishTask, h, if_false, List.mem_cons, List.mem_singleton] at hx
        rcases hx with rfl | rfl | hx
        · rfl
        · rfl
        · simp at hx

/-- The outcome of the shared create-poll-download tail does not depend
on the prompt argument nor on the enhancement field of the world. -/
theorem generate_from_text_outcome_congr (t1 t2 : String) (w w2 : World)
    (hct : w2.createTask = w.createTask) (hpl : w2.pollResult = w.pollResult)
    (hdl : w2.download = w.download) :
    (generate_from_text t1 w).outcome = (generate_from_text t2 w2).outcome := by
  unfold generate_from_text
  rw [hct, hpl, hdl]
  rcases hw : w.createTask with e | tid <;> simp only [hw] <;> try rfl
  rcases hp : w.pollResult with e | r <;> simp only [hp] <;> try rfl
  by_cases hc : r.status = ("succeeded") ∧ optTruthy r.video_url = true
  · rw [if_pos hc, if_pos hc]
  · rw [if_neg hc, if_neg hc]

/-- The outcome of the mode dispatch does not depend on the prompt
argument nor on the enhancement field of the world. -/
theorem runGen_outcome_congr (mode t1 t2 : String) (ip vp : Option String) (w w2 : World)
    (hrs : w2.readSource = w.readSource) (hct : w2.createTask = w.createTask)
    (hpl : w2.pollResult = w.pollResult) (hdl : w2.download = w.download) :
    (runGen mode t1 ip vp w).map GenCall.outcome =
      (runGen mode t2 ip vp w2).map GenCall.outcome := by
  unfold runGen
  by_cases h1 : mode = ("text2video")
  · simp only [h1, if_pos rfl, Option.map_some']
    exact congrArg some (generate_from_text_outcome_congr t1 t2 w w2 hct hpl hdl)
  · rw [if_neg h1, if_neg h1]
    by_cases h2 : mode = ("image2video")
    · simp only [h2, if_pos rfl, Option.map_some']
      refine congrArg some ?_
      unfold generate_from_image
      rcases ip with _ | p
      · rfl
      · rw [hrs]
        rcases hr : w.readSource with e | u <;> simp only [hr] <;> try rfl
        exact generate_from_text_outcome_congr t1 t2 w w2 hct hpl hdl
    · rw [if_neg h2, if_neg h2]
      by_cases h3 : mode = ("edit")
      · simp only [h3, if_pos rfl, Option.map_some']
        refine congrArg some ?_
        unfold edit_video
        rcases pyOr vp ip with _ | p
        · rfl
        · rw [hrs]
          rcases hr : w.readSource with e | u <;> simp only [hr] <;> try rfl
          exact generate_from_text_outcome_congr t1 t2 w w2 hct hpl hdl
      · rw [if_neg h3, if_neg h3]

/-- The prompt argument the shared tail receives is the text it was
called with. -/
theorem generate_from_text_promptArg (t1 : String) (w : World) :
    (generate_from_text t1 w).promptArg = t1 := by
  unfold generate_from_text
  rcases hw : w.createTask with e | tid <;> simp only [hw] <;> try rfl
  rcases hp : w.pollResult with e | r <;> simp only [hp] <;> try rfl
  split <;> rfl

/-- Every generator method receives the working text as its prompt
argument. -/
theorem runGen_promptArg (mode t1 : String) (ip vp : Option String) (w : World) :
    ∀ g, runGen mode t1 ip vp w = some g → g.promptArg = t1 := by
  intro g hg
  unfold runGen at hg
  split at hg
  · rw [← Option.some_inj.mp hg]
    exact generate_from_text_promptArg t1 w
  · split at hg
    · rw [← Option.some_inj.mp hg]
      unfold generate_from_image
      rcases ip with _ | p
      · rfl
      · rcases hr : w.readSource with e | u <;> simp only [hr] <;> try rfl
        exact generate_from_text_promptArg t1 w
    · split at hg
      · rw [← Option.some_inj.mp hg]
        unfold edit_video
        rcases pyOr vp ip with _ | p
        · rfl
        · rcases hr : w.readSource with e | u <;> simp only [hr] <;> try rfl
          exact generate_from_text_promptArg t1 w
      · exact absurd hg (by simp)

/-- C8: when prompt enhancement is requested and textual input is
present and the enhancement collaborator raises, the exception is
caught: no record state ever carries an enhanced_prompt, every
generator method invoked receives the original prompt, and the final
status of the task is the same as it would have been under any other
enhancement outcome, so enhancement failure never causes the task to
fail. -/
theorem enhancement_failure_not_fatal (task_id mode text : String) (ip vp : Option String)
    (rv : String) (d : Nat) (r0 : TaskRecord) (w : World) (e : String)
    (htext : text ≠ (""))
    (he : w.enhance = .error e)
    (h0 : r0.enhanced_prompt = none) :
    (∀ x ∈ (generate_video_task task_id mode text ip vp rv d true r0 w).trace,
      x.enhanced_prompt = none) ∧
    (∀ g, (generate_video_task task_id mode text ip vp rv d true r0 w).genCall = some g →
      g.promptArg = text) ∧
    (∀ en2 : Except String String,
      finalStatus (generate_video_task task_id mode text ip vp rv d true r0 w) =
        finalStatus (generate_video_task task_id mode text ip vp rv d true r0
          { w with enhance := en2 })) := by
  have hspec := enhanceStep_error_spec true text
    { r0 with status := "processing", progress := "Initializing..." } w e he
  refine ⟨?_, ?_, ?_⟩
  · intro x hx
    have htr : (generate_video_task task_id mode text ip vp rv d true r0 w).trace =
        (r0 :: { r0 with status := "processing" } ::
          { r0 with status := "processing", progress := "Initializing..." } ::
          ((enhanceStep true text
            { r0 with status := "processing", progress := "Initializing..." } w).1 ++
           (dispatchStep mode
            (enhanceStep true text
              { r0 with status := "processing", progress := "Initializing..." } w).2.2
            ip vp
            (enhanceStep true text
              { r0 with status := "processing", progress := "Initializing..." } w).2.1
            w).1)) ++
        (finishTask
          ((dispatchStep mode
            (enhanceStep true text
              { r0 with status := "processing", progress := "Initializing..." } w).2.2
            ip vp
            (enhanceStep true text
              { r0 with status := "processing", progress := "Initializing..." } w).2.1
            w).1.getLastD
            (enhanceStep true text
              { r0 with status := "processing", progress := "Initializing..." } w).2.1)
          ((dispatchStep mode
            (enhanceStep true text
              { r0 with status := "processing", progress := "Initializing..." } w).2.2
            ip vp
            (enhanceStep true text
              { r0 with status := "processing", progress := "Initializing..." } w).2.1
            w).2.map GenCall.outcome)
          w.now).1 := rfl
    rw [htr] at hx
    rcases List.mem_append.mp hx with hx | hx
    · rcases List.mem_cons.mp hx with rfl | hx
      · exact h0
      · rcases List.mem_cons.mp hx with rfl | hx
        · exact h0
        · rcases List.mem_cons.mp hx with rfl | hx
          · exact h0
          · rcases List.mem_append.mp hx with hx | hx
            · rw [hspec.2.1 x hx]
              exact h0
            · have hd := dispatchStep_mem mode _ ip vp _ w x hx
              rw [hd.2.2.2, hspec.2.2]
              exact h0
    · have hf := finishTask_mem_enh _ _ w.now x hx
      rw [hf]
      have hl := dispatchStep_lastD mode
        (enhanceStep true text
          { r0 with status := "processing", progress := "Initializing..." } w).2.2
        ip vp
        (enhanceStep true text
          { r0 with status := "processing", progress := "Initializing..." } w).2.1
        w
      rw [hl.2.2.2, hspec.2.2]
      exact h0
  · intro g hg
    rw [runner_genCall, hspec.1] at hg
    exact runGen_promptArg mode text ip vp w g hg
  · intro en2
    rw [runner_finalStatus, runner_finalStatus]
    refine congrArg _ (congrArg _ ?_)
    rw [runner_genCall, runner_genCall]
    exact runGen_outcome_congr mode _ _ ip vp w { w with enhance := en2 } rfl rfl rfl rfl

/-- A world whose enhancement collaborator raises and whose remote job
fails. -/
def wEight : World :=
  { enhance := .error ("boom")
    readSource := .ok ()
    createTask := .ok ("remote-8")
    pollResult := .ok { status := "failed", video_url := none, error := some ("remote err") }
    pollCallbacks := []
    download := none
    now := "T8" }

/-- The generator call the concrete enhancement-failure run makes. -/
def gEight : GenCall := generate_from_text ("hi") wEight

/-- C8 witness: the theorem applied to a concrete run whose enhancement
collaborator raises; the stored record never carries an
enhanced_prompt, the generator call receives the original prompt, and
the final status equals the one under a successful enhancement. -/
theorem enhancement_failure_not_fatal_witness :
    (pendingRecord ("t8") ("T0") exParams).enhanced_prompt = none ∧
    gEight.promptArg = ("hi") ∧
    finalStatus (generate_video_task ("t8") ("text2video") ("hi") none none ("16:9") 5 true
      (pendingRecord ("t8") ("T0") exParams) wEight) =
      finalStatus (generate_video_task ("t8") ("text2video") ("hi") none none ("16:9") 5 true
        (pendingRecord ("t8") ("T0") exParams) { wEight with enhance := .ok ("better") }) := by
  have h := enhancement_failure_not_fatal ("t8") ("text2video") ("hi") none none ("16:9") 5
    (pendingRecord ("t8") ("T0") exParams) wEight ("boom") (by decide) rfl rfl
  exact ⟨h.1 (pendingRecord ("t8") ("T0") exParams) (by decide),
    h.2.1 gEight rfl, h.2.2 (.ok ("better"))⟩

/-- A world in which enhancement succeeds, one progress callback fires
and the remote job fails. -/
def wFive : World :=
  { enhance := .ok ("nice")
    readSource := .ok ()
    createTask := .ok ("remote-5")
    pollResult := .ok { status := "failed", video_url := none, error := some ("boom") }
    pollCallbacks := [(("running"), 5)]
    download := none
    now := "T5" }

/-- The 9th record state of the concrete monotone run: failed, error
not yet assigned. -/
def recFive8 : TaskRecord :=
  { id := "t5", status := "failed", progress := "Status: running", created_at := "T0",
    params := exParams, enhanced_prompt := some ("nice"), elapsed := some 5 }

/-- The final record state of the concrete monotone run. -/
def recFive9 : TaskRecord :=
  { id := "t5", status := "failed", progress := "Status: running", created_at := "T0",
    params := exParams, enhanced_prompt := some ("nice"), elapsed := some 5,
    error := some ("boom") }

/-- C5 witness: the monotonicity theorem applied to a concrete failing
run, with the stability clause instantiated at the two terminal record
states. -/
theorem task_status_monotone_witness :
    List.Chain' (fun a b => statusRank a ≤ statusRank b)
      ((generate_video_task ("t5") ("text2video") ("hi") none none ("16:9") 5 true
        (pendingRecord ("t5") ("T0") exParams) wFive).trace.map TaskRecord.status) ∧
    recFive9.status = recFive8.status := by
  have h := task_status_monotone ("t5") ("text2video") ("hi") none none ("16:9") 5 true
    ("t5") ("T0") exParams wFive
  exact ⟨h.1, h.2 8 9 recFive8 recFive9 (by norm_num) (by decide) (by decide) (.inr rfl)⟩

/-- A world where the remote job succeeds and the download succeeds. -/
def wSix : World :=
  { enhance := .error ("nope")
    readSource := .ok ()
    createTask := .ok ("remote-6")
    pollResult := .ok { status := "succeeded", video_url := some ("http://cdn/v6.mp4"), error := none }
    pollCallbacks := []
    download := some ("videos/video_t6.mp4")
    now := "T6" }

/-- The record state written by web_server.py line 141, observed before
line 144 runs: status already completed, result not yet assigned. -/
def recSixTransient : TaskRecord :=
  { id := "t6", status := "completed", progress := "Generating video from text...",
    created_at := "T0", params := exParams }

/-- The final record of the concrete completed run. -/
def recSixFinal : TaskRecord :=
  { id := "t6", status := "completed", progress := "Done!", created_at := "T0",
    params := exParams, completed_at := some ("T6"),
    result := some { video_url := some ("http://cdn/v6.mp4"),
                     local_path := some ("videos/video_t6.mp4"),
                     video_filename := some ("video_t6.mp4") } }

/-- C6 counterexample: at the record state between the status
assignment of web_server.py line 141 and the result assignment of line
144, the task status is completed while the result field is absent, so
the claimed equivalence between a completed status and a present result
does not hold at every point of the lifecycle. -/
theorem task_result_error_transient_counterexample :
    (generate_video_task ("t6") ("text2video") ("hi") none none ("16:9") 5 false
      (pendingRecord ("t6") ("T0") exParams) wSix).trace[4]? = some recSixTransient ∧
    recSixTransient.status = ("completed") ∧
    recSixTransient.result = none ∧
    recSixTransient.error = none := by
  refine ⟨by decide, rfl, rfl, rfl⟩

/-- C6 witness: the amended theorem applied to the concrete completed
run, with the final-state clause instantiated at the final record. -/
theorem task_result_error_discipline_witness :
    ((recSixFinal.status = ("completed") ↔ recSixFinal.result.isSome = true) ∧
     (recSixFinal.status = ("failed") ↔ recSixFinal.error.isSome = true) ∧
     ¬(recSixFinal.result.isSome = true ∧ recSixFinal.error.isSome = true)) :=
  (task_result_error_discipline ("t6") ("text2video") ("hi") none none ("16:9") 5 false
    ("t6") ("T0") exParams wSix).2 recSixFinal (by decide)
